import Mathlib

/-!
Verification of the Space3D sensor-fusion component (src/inc/3dspace.h).

The C++ class `Space3D` is shallowly embedded as a pure state-transition
system: the private members become fields of `Space3DState`, the external
sensor/clock collaborators (accelerometer, compass, monotonic clock) become
an explicit `Env` record of readings, and every member function becomes a
Lean function from state (and environment) to state, returning the C++
`int` status code where the source does.

C++ `float` quantities are modelled as real numbers; `int32_t` fields as
`Int` (the claims never approach 32-bit overflow).  The source contains a
few ill-formed fragments (`angle == nullptr` on a float, `ax == nullptr`,
an assignment to the method name `motionTracking`, an `int16_t` compared to
`nullptr`); spec sections 7 and 9 describe these as defects whose intent is
the plain reading modelled here — each such spot is noted at the defining
site below.
-/

namespace Space3DModel

/-- Modelled from the spec: codal status codes (`ErrorNo.h` is not part of
src/).  The concrete numerals are immaterial to every claim; only their
distinctness and names matter. -/
def DEVICE_OK : Int := 0

def DEVICE_INVALID_STATE : Int := -1002

def DEVICE_CALIBRATION_IN_PROGRESS : Int := -1004

def DEVICE_CALIBRATION_REQUIRED : Int := -1005

def DEVICE_I2C_ERROR : Int := -1010

/-- src/inc/3dspace.h line 39. -/
def DEVICE_ID_SPACE3D : Int := 0x2001

/-- src/inc/3dspace.h line 10. -/
def DEVICE_ID_SPACE3D_FALL_REPORT : Int := 0x2002

/-- src/inc/3dspace.h line 40: `#define SPIN_THRESHOLD 100`, compared
against the `float` member `radialAccel` in `getYaw`. -/
def SPIN_THRESHOLD : ℝ := 100

/-- src/inc/3dspace.h line 9: `#define ENABLE_FALL_SPEED_DECTION 0`. -/
def ENABLE_FALL_SPEED_DECTION : Int := 0

/-- The guard around the free-fall branch (line 96) is
`#if defined(ENABLE_FALL_SPEED_DECTION)`: it tests whether the macro is
defined at all, not its value.  Since line 9 defines the macro (with value
0), the guard is true and the branch is compiled in. -/
def ENABLE_FALL_SPEED_DECTION_isDefined : Bool := true

/-- Modelled from the spec: codal gesture event codes (the accelerometer
header is not part of src/).  Values immaterial beyond distinctness. -/
def ACCELEROMETER_EVT_TILT_UP : Nat := 1

def ACCELEROMETER_EVT_TILT_DOWN : Nat := 2

def ACCELEROMETER_EVT_TILT_LEFT : Nat := 3

def ACCELEROMETER_EVT_TILT_RIGHT : Nat := 4

def ACCELEROMETER_EVT_FACE_UP : Nat := 5

def ACCELEROMETER_EVT_FACE_DOWN : Nat := 6

def ACCELEROMETER_EVT_FREEFALL : Nat := 7

def ACCELEROMETER_EVT_3G : Nat := 8

def ACCELEROMETER_EVT_6G : Nat := 9

def ACCELEROMETER_EVT_8G : Nat := 10

def ACCELEROMETER_EVT_SHAKE : Nat := 11

def ACCELEROMETER_EVT_2G : Nat := 12

/-- `SPACE_3D` (src/inc/3dspace.h lines 12-20): the six-field pose. -/
structure SPACE_3D where
  device_x : Int
  device_y : Int
  device_z : Int
  device_roll : Int
  device_pitch : Int
  device_yaw : Int
deriving DecidableEq, Repr

/-- `SPACE_CENTER` (src/inc/3dspace.h lines 22-30): the center reference. -/
structure SPACE_CENTER where
  CENTER_X : Int
  CENTER_Y : Int
  CENTER_Z : Int
  CENTER_ROLL : Int
  CENTER_PITCH : Int
  CENTER_YAW : Int
deriving DecidableEq, Repr

/-- The external collaborators of the component, as a record of current
readings: accelerometer axes (`getX/getY/getZ/getRoll/getPitch`), compass
(`heading/getFieldStrength/calibrate`), and the monotonic millisecond
clock (`system_timer_current_time`). -/
structure Env where
  accelX : Int
  accelY : Int
  accelZ : Int
  accelRoll : Int
  accelPitch : Int
  compHeading : Int
  compFieldStrength : Int
  compCalibrateResult : Int
  now : Nat
deriving DecidableEq, Repr

/-- The private members of class `Space3D` (src/inc/3dspace.h lines
44-61, 116), plus two observables of its external effects: `tickRegs`
records every `system_timer_event_every` registration made by `setup`
(newest first), and `firedEvents` records every `Event(...).fire()`
(newest first).  `lastUpdateTime` is used by `update` (line 258) though
the class never declares it; it is modelled as an ordinary field. -/
structure Space3DState where
  hasComp : Bool
  calibrated : Bool
  currentState : SPACE_3D
  centerState : SPACE_CENTER
  sampleRate : Int
  radialAccel : ℝ
  vx : ℝ
  x : ℝ
  vy : ℝ
  y : ℝ
  vz : ℝ
  z : ℝ
  tickId : Int
  last_time : Nat
  velocity_z : ℝ
  trackMotion : Bool
  lastUpdateTime : Nat
  tickRegs : List (Int × Int)
  firedEvents : List (Int × ℝ)

/-- Four-quadrant arctangent, the exact-real semantics of C `atan2(y, x)`
used at src/inc/3dspace.h line 125 (range (-pi, pi]). -/
noncomputable def atan2 (y x : ℝ) : ℝ :=
  if 0 < x then Real.arctan (y / x)
  else if x < 0 ∧ 0 ≤ y then Real.arctan (y / x) + Real.pi
  else if x < 0 then Real.arctan (y / x) - Real.pi
  else if 0 < y then Real.pi / 2
  else if y < 0 then -(Real.pi / 2)
  else 0

/-- C `float`-to-`int32_t` conversion truncates toward zero. -/
noncomputable def floatToInt (r : ℝ) : Int :=
  if 0 ≤ r then ⌊r⌋ else ⌈r⌉

/-- `Space3D::getYaw` (src/inc/3dspace.h lines 117-139).  The compass
branch at line 119 is an empty TODO and changes nothing.  The guard
`if (angle == nullptr) return 0;` at line 126 compares a float against a
null-pointer constant — ill-formed C++, read per spec section 9 as a
non-firing defensive check and modelled as absent (a zero angle yields 0
on the remaining paths anyway, so behaviour is unchanged).  Then: if
`radialAccel < SPIN_THRESHOLD` return 0; otherwise normalize the degree
angle into [0, 360) by adding 360 when negative. -/
noncomputable def getYaw (s : Space3DState) : ℝ :=
  let angle : ℝ :=
    atan2 (s.currentState.device_y : ℝ) (s.currentState.device_x : ℝ) * 180 / Real.pi
  if s.radialAccel < SPIN_THRESHOLD then 0
  else if angle < 0 then angle + 360 else angle

/-- `Space3D::update(bool ignorecal)` (src/inc/3dspace.h lines 235-287).
Returns the status code and the successor state.  The calibration gate
(lines 237-240) returns early, untouched state.  Pose fields are raw
accelerometer readings minus the center reference; yaw comes from the
compass when attached with field strength > 20, else from `getYaw`
evaluated on the just-written lateral fields, minus `CENTER_YAW` (the
float difference is truncated into the `int32_t` field).  The motion
branch (lines 255-284) integrates acceleration with forward Euler; its
`ax == nullptr` test (line 265) is the same ill-formed defensive check as
in `getYaw`, modelled as non-firing (real values are always numeric). -/
noncomputable def update (s : Space3DState) (env : Env) (ignorecal : Bool) :
    Int × Space3DState :=
  if ignorecal = false ∧ s.calibrated = false then
    (DEVICE_CALIBRATION_IN_PROGRESS, s)
  else
    let s1 : Space3DState :=
      { s with currentState :=
        { device_x := env.accelX - s.centerState.CENTER_X
          device_y := env.accelY - s.centerState.CENTER_Y
          device_z := env.accelZ - s.centerState.CENTER_Z
          device_roll := env.accelRoll - s.centerState.CENTER_ROLL
          device_pitch := env.accelPitch - s.centerState.CENTER_PITCH
          device_yaw := s.currentState.device_yaw } }
    let yawVal : Int :=
      if s1.hasComp = true ∧ 20 < env.compFieldStrength then
        env.compHeading - s1.centerState.CENTER_YAW
      else
        floatToInt (getYaw s1 - (s1.centerState.CENTER_YAW : ℝ))
    let s2 : Space3DState :=
      { s1 with currentState := { s1.currentState with device_yaw := yawVal } }
    if s2.trackMotion = true then
      let dt : ℝ := ((env.now : ℝ) - (s2.lastUpdateTime : ℝ)) / 1000
      let ax0 : ℝ := (s2.currentState.device_x : ℝ) * 9.81 / 1000
      let ay0 : ℝ := (s2.currentState.device_y : ℝ) * 9.81 / 1000
      let az0 : ℝ := (s2.currentState.device_z : ℝ) * 9.81 / 1000
      let ax : ℝ := if 0.2 < dt then ax0 * 0.5 else ax0
      let ay : ℝ := if 0.2 < dt then ay0 * 0.5 else ay0
      let az : ℝ := if 0.2 < dt then az0 * 0.5 else az0
      let nvx : ℝ := s2.vx + ax * dt
      let nvy : ℝ := s2.vy + ay * dt
      let nvz : ℝ := s2.vz + az * dt
      (DEVICE_OK,
        { s2 with lastUpdateTime := env.now
                  vx := nvx, vy := nvy, vz := nvz
                  x := s2.x + nvx * dt, y := s2.y + nvy * dt, z := s2.z + nvz * dt })
    else
      (DEVICE_OK, s2)

/-- `Space3D::calibrateCenter` (src/inc/3dspace.h lines 332-342): run
`update(true)` (gate overridden), then copy the resulting pose verbatim
into the center reference. -/
noncomputable def calibrateCenter (s : Space3DState) (env : Env) : Space3DState :=
  let s1 := (update s env true).2
  { s1 with centerState :=
    { CENTER_X := s1.currentState.device_x
      CENTER_Y := s1.currentState.device_y
      CENTER_Z := s1.currentState.device_z
      CENTER_ROLL := s1.currentState.device_roll
      CENTER_PITCH := s1.currentState.device_pitch
      CENTER_YAW := s1.currentState.device_yaw } }

/-- `Space3D::recalibrate` (src/inc/3dspace.h lines 311-329): clear the
calibrated flag; with a compass attached, run its native calibration and
propagate `DEVICE_I2C_ERROR` / `DEVICE_CALIBRATION_REQUIRED` immediately
(center reference untouched, flag left false); otherwise recapture the
center and set the flag. -/
noncomputable def recalibrate (s : Space3DState) (env : Env) : Int × Space3DState :=
  let s1 : Space3DState := { s with calibrated := false }
  if s1.hasComp = true ∧ env.compCalibrateResult = DEVICE_I2C_ERROR then
    (DEVICE_I2C_ERROR, s1)
  else if s1.hasComp = true ∧ env.compCalibrateResult = DEVICE_CALIBRATION_REQUIRED then
    (DEVICE_CALIBRATION_REQUIRED, s1)
  else
    let s2 := calibrateCenter s1 env
    (DEVICE_OK, { s2 with calibrated := true })

/-- `Space3D::setup` (src/inc/3dspace.h lines 216-225): register a
periodic tick `system_timer_event_every(sampleRate, DEVICE_ID_SPACE3D,
_id)` and bump `_id`.  The `_id == nullptr` initialization check at line
218 (an `int16_t` against `nullptr`) is the defect spec section 9
replaces with deterministic initialization; `tickId` starts at 0 in the
initial state below, making the check a no-op. -/
def setup (s : Space3DState) : Space3DState :=
  { s with tickRegs := (s.sampleRate, s.tickId) :: s.tickRegs
           tickId := s.tickId + 1 }

/-- `Space3D::setSampleRate` (src/inc/3dspace.h lines 344-353): gate on
the calibrated flag, else store the rate and re-run `setup` (which
registers the tick at the newly stored rate). -/
def setSampleRate (s : Space3DState) (rate : Int) : Int × Space3DState :=
  if s.calibrated = false then
    (DEVICE_CALIBRATION_IN_PROGRESS, s)
  else
    (DEVICE_OK, setup { s with sampleRate := rate })

/-- `Space3D::motionTracking` (src/inc/3dspace.h lines 203-215).  The
source assigns `this->motionTracking = enable` — the method name rather
than the field `trackMotion`, the defect spec section 9 reads as a
toggle of the boolean field, modelled as such.  On enable, position and
velocity are zeroed; on disable they are left untouched. -/
def motionTracking (s : Space3DState) (enable : Bool) : Space3DState :=
  let s1 : Space3DState := { s with trackMotion := enable }
  if enable = true then
    { s1 with x := 0, y := 0, z := 0, vx := 0, vy := 0, vz := 0 }
  else
    s1

/-- The implicit member state at entry to any constructor body.
`currentState` and `centerState` are zeroed explicitly by every
constructor (e.g. lines 146-147); the remaining members (`radialAccel`,
the motion floats, `velocity_z`, timestamps, `tickId`) are never
initialized by the source — they are modelled as the zero-initialized
values a static-storage instance would have. -/
def initialState (rate : Int) (hasC : Bool) : Space3DState :=
  { hasComp := hasC
    calibrated := false
    currentState := ⟨0, 0, 0, 0, 0, 0⟩
    centerState := ⟨0, 0, 0, 0, 0, 0⟩
    sampleRate := rate
    radialAccel := 0
    vx := 0, x := 0, vy := 0, y := 0, vz := 0, z := 0
    tickId := 0
    last_time := 0
    velocity_z := 0
    trackMotion := false
    lastUpdateTime := 0
    tickRegs := []
    firedEvents := [] }

/-- `Space3D::Space3D(Accelerometer&, int)` (src/inc/3dspace.h lines
143-155): setup, gesture registration (an external bus subscription, no
member-state effect), `calibrateCenter()`, `calibrated = true`, then
`this->update()` — the source's no-argument call, which can only be the
gated sampling update, modelled as `update(false)` — and finally
`hasComp = false`.  `calibrated(false)` appears in the init list. -/
noncomputable def construct1 (env : Env) (rate : Int) : Space3DState :=
  let s0 := initialState rate false
  let s1 := setup s0
  let s2 := calibrateCenter s1 env
  let s3 : Space3DState := { s2 with calibrated := true }
  let s4 := (update s3 env false).2
  { s4 with hasComp := false }

/-- `Space3D::Space3D(Accelerometer&, Compass&, int)` (src/inc/3dspace.h
lines 157-170): same body, but at the end `hasComp = true` and
`this->comp.calibrate()` is invoked with its result DISCARDED (line 169
is the last statement; nothing inspects the returned code).  During the
body's `calibrateCenter`/`update` calls, `hasComp` has not yet been
assigned (it is set only at line 168); it is modelled as the
zero-initialized value `false` for those calls. -/
noncomputable def construct2 (env : Env) (rate : Int) : Space3DState :=
  let s0 := initialState rate false
  let s1 := setup s0
  let s2 := calibrateCenter s1 env
  let s3 : Space3DState := { s2 with calibrated := true }
  let s4 := (update s3 env false).2
  { s4 with hasComp := true }

/-- `Space3D::Space3D(Compass&, int)` (src/inc/3dspace.h lines 172-186):
heap-allocates a default accelerometer (readings still come from `Env`),
then the same body as the two-sensor constructor: center calibration,
`calibrated = true`, update, `hasComp = true`, compass calibration with
the result discarded. -/
noncomputable def construct3 (env : Env) (rate : Int) : Space3DState :=
  let s0 := initialState rate false
  let s1 := setup s0
  let s2 := calibrateCenter s1 env
  let s3 : Space3DState := { s2 with calibrated := true }
  let s4 := (update s3 env false).2
  { s4 with hasComp := true }

/-- `Space3D::Space3D(int)` (src/inc/3dspace.h lines 188-201): default
accelerometer, no compass; same body as the one-sensor constructor. -/
noncomputable def construct4 (env : Env) (rate : Int) : Space3DState :=
  let s0 := initialState rate false
  let s1 := setup s0
  let s2 := calibrateCenter s1 env
  let s3 : Space3DState := { s2 with calibrated := true }
  let s4 := (update s3 env false).2
  { s4 with hasComp := false }

/-- `Space3D::onGestureDetected` (src/inc/3dspace.h lines 66-115).
Shake/shock events run `this->update()` (modelled as the gated
`update(false)`, as in the constructors) and recompute `radialAccel` as
the magnitude of the lateral pose offsets.  Tilt/face events are no-ops.
The free-fall branch is compiled in (see
`ENABLE_FALL_SPEED_DECTION_isDefined`): it integrates
gravity-compensated vertical acceleration into `velocity_z` over the
elapsed time since `last_time` and fires a
`DEVICE_ID_SPACE3D_FALL_REPORT` event carrying the new estimate.
Unknown gestures are no-ops. -/
noncomputable def onGestureDetected (s : Space3DState) (env : Env) (gesture : Nat) :
    Space3DState :=
  if gesture = ACCELEROMETER_EVT_SHAKE ∨ gesture = ACCELEROMETER_EVT_2G ∨
     gesture = ACCELEROMETER_EVT_3G ∨ gesture = ACCELEROMETER_EVT_6G ∨
     gesture = ACCELEROMETER_EVT_8G then
    let s1 := (update s env false).2
    let gx : Int := s1.currentState.device_x
    let gy : Int := s1.currentState.device_y
    { s1 with radialAccel := Real.sqrt ((gx * gx + gy * gy : Int) : ℝ) }
  else if gesture = ACCELEROMETER_EVT_TILT_LEFT ∨ gesture = ACCELEROMETER_EVT_TILT_RIGHT ∨
          gesture = ACCELEROMETER_EVT_FACE_UP ∨ gesture = ACCELEROMETER_EVT_FACE_DOWN then
    s
  else if gesture = ACCELEROMETER_EVT_FREEFALL then
    if ENABLE_FALL_SPEED_DECTION_isDefined = true then
      let dt : ℝ := ((env.now : ℝ) - (s.last_time : ℝ)) / 1000
      let az : ℝ := (env.accelZ : ℝ) * 9.81 / 1000
      let net_az : ℝ := az - 9.81
      let v : ℝ := s.velocity_z + net_az * dt
      { s with last_time := env.now
               velocity_z := v
               firedEvents := (DEVICE_ID_SPACE3D_FALL_REPORT, v) :: s.firedEvents }
    else
      s
  else
    s

/-- An all-zero environment, reused by several concrete evaluations. -/
def envZero : Env :=
  { accelX := 0, accelY := 0, accelZ := 0, accelRoll := 0, accelPitch := 0
    compHeading := 0, compFieldStrength := 0, compCalibrateResult := 0, now := 0 }

theorem floatToInt_intCast (n : Int) : floatToInt (n : ℝ) = n := by
  unfold floatToInt
  split_ifs <;> simp

theorem floatToInt_zero_sub_intCast (n : Int) :
    floatToInt (0 - (n : ℝ)) = -n := by
  have h : (0 : ℝ) - (n : ℝ) = ((-n : Int) : ℝ) := by push_cast; ring
  rw [h, floatToInt_intCast]

theorem getYaw_radial_lt (s : Space3DState)
    (h : s.radialAccel < SPIN_THRESHOLD) : getYaw s = 0 := by
  unfold getYaw
  simp [h]

/-- The gated update leaves the state untouched and ignores the sensors
when the component is not calibrated. -/
theorem update_gate (s : Space3DState) (env : Env)
    (h : s.calibrated = false) :
    update s env false = (DEVICE_CALIBRATION_IN_PROGRESS, s) := by
  unfold update
  simp [h]

theorem update_centerState (s : Space3DState) (env : Env) (b : Bool) :
    ((update s env b).2).centerState = s.centerState := by
  unfold update
  dsimp only
  split_ifs <;> rfl

theorem update_calibrated (s : Space3DState) (env : Env) (b : Bool) :
    ((update s env b).2).calibrated = s.calibrated := by
  unfold update
  dsimp only
  split_ifs <;> rfl

theorem update_hasComp (s : Space3DState) (env : Env) (b : Bool) :
    ((update s env b).2).hasComp = s.hasComp := by
  unfold update
  dsimp only
  split_ifs <;> rfl

theorem update_radialAccel (s : Space3DState) (env : Env) (b : Bool) :
    ((update s env b).2).radialAccel = s.radialAccel := by
  unfold update
  dsimp only
  split_ifs <;> rfl

theorem update_trackMotion (s : Space3DState) (env : Env) (b : Bool) :
    ((update s env b).2).trackMotion = s.trackMotion := by
  unfold update
  dsimp only
  split_ifs <;> rfl

/-- What a passing update writes into the pose, on the no-compass path
with the spin gate closed: raw reading minus center reference, and a yaw
of `0 - CENTER_YAW` truncated. -/
theorem update_pass_currentState (s : Space3DState) (env : Env) (b : Bool)
    (hpass : b = true ∨ s.calibrated = true)
    (hcomp : s.hasComp = false)
    (hr : s.radialAccel < SPIN_THRESHOLD) :
    ((update s env b).2).currentState =
      ⟨env.accelX - s.centerState.CENTER_X,
       env.accelY - s.centerState.CENTER_Y,
       env.accelZ - s.centerState.CENTER_Z,
       env.accelRoll - s.centerState.CENTER_ROLL,
       env.accelPitch - s.centerState.CENTER_PITCH,
       -s.centerState.CENTER_YAW⟩ := by
  have hgate : ¬ (b = false ∧ s.calibrated = false) := by
    rcases hpass with h | h <;> simp [h]
  have hyaw : getYaw
      { s with currentState :=
        { device_x := env.accelX - s.centerState.CENTER_X
          device_y := env.accelY - s.centerState.CENTER_Y
          device_z := env.accelZ - s.centerState.CENTER_Z
          device_roll := env.accelRoll - s.centerState.CENTER_ROLL
          device_pitch := env.accelPitch - s.centerState.CENTER_PITCH
          device_yaw := s.currentState.device_yaw } } = 0 :=
    getYaw_radial_lt _ hr
  have hcond : ¬ (s.hasComp = true ∧ 20 < env.compFieldStrength) := by
    simp [hcomp]
  unfold update
  rw [if_neg hgate]
  dsimp only
  rw [if_neg hcond]
  simp only [hyaw]
  rw [floatToInt_zero_sub_intCast]
  split_ifs <;> rfl

theorem calibrateCenter_calibrated (s : Space3DState) (env : Env) :
    (calibrateCenter s env).calibrated = s.calibrated := by
  unfold calibrateCenter
  dsimp only
  simp [update_calibrated]

theorem calibrateCenter_hasComp (s : Space3DState) (env : Env) :
    (calibrateCenter s env).hasComp = s.hasComp := by
  unfold calibrateCenter
  dsimp only
  simp [update_hasComp]

theorem calibrateCenter_radialAccel (s : Space3DState) (env : Env) :
    (calibrateCenter s env).radialAccel = s.radialAccel := by
  unfold calibrateCenter
  dsimp only
  simp [update_radialAccel]

theorem calibrateCenter_trackMotion (s : Space3DState) (env : Env) :
    (calibrateCenter s env).trackMotion = s.trackMotion := by
  unfold calibrateCenter
  dsimp only
  simp [update_trackMotion]

/-- The center captured by `calibrateCenter` on the no-compass, closed
spin-gate path: it is the OFFSET pose (raw minus the previous center),
not the raw reading itself. -/
theorem calibrateCenter_centerState (s : Space3DState) (env : Env)
    (hcomp : s.hasComp = false)
    (hr : s.radialAccel < SPIN_THRESHOLD) :
    (calibrateCenter s env).centerState =
      ⟨env.accelX - s.centerState.CENTER_X,
       env.accelY - s.centerState.CENTER_Y,
       env.accelZ - s.centerState.CENTER_Z,
       env.accelRoll - s.centerState.CENTER_ROLL,
       env.accelPitch - s.centerState.CENTER_PITCH,
       -s.centerState.CENTER_YAW⟩ := by
  unfold calibrateCenter
  dsimp only
  rw [update_pass_currentState s env true (Or.inl rfl) hcomp hr]

theorem calibrateCenter_currentState (s : Space3DState) (env : Env)
    (hcomp : s.hasComp = false)
    (hr : s.radialAccel < SPIN_THRESHOLD) :
    (calibrateCenter s env).currentState =
      ⟨env.accelX - s.centerState.CENTER_X,
       env.accelY - s.centerState.CENTER_Y,
       env.accelZ - s.centerState.CENTER_Z,
       env.accelRoll - s.centerState.CENTER_ROLL,
       env.accelPitch - s.centerState.CENTER_PITCH,
       -s.centerState.CENTER_YAW⟩ := by
  unfold calibrateCenter
  dsimp only
  rw [update_pass_currentState s env true (Or.inl rfl) hcomp hr]

/-- A freshly-constructed member state with no compass, not calibrated. -/
def baseState : Space3DState := initialState 25 false

/-- A calibrated no-compass state. -/
def sCal : Space3DState := { baseState with calibrated := true }

/-- A calibrated state with a compass attached and a non-trivial center. -/
def sComp : Space3DState :=
  { baseState with hasComp := true, calibrated := true
                   centerState := ⟨1, 2, 3, 4, 5, 6⟩ }

/-- An environment whose compass calibration reports an I2C bus error. -/
def envI2c : Env := { envZero with compCalibrateResult := DEVICE_I2C_ERROR }

/-- An environment with non-trivial accelerometer readings. -/
def envRaw : Env :=
  { envZero with accelX := 9, accelY := 8, accelZ := 7, accelRoll := 6, accelPitch := 5 }

/-- Claim C3: when a compass is attached and its calibrate() reports an I2C
bus error, recalibrate() returns I2cError, leaves the state not-Calibrated,
and leaves every field of the center reference at its pre-call value. -/
theorem C3_recalibrate_i2c_error (s : Space3DState) (env : Env)
    (hc : s.hasComp = true)
    (he : env.compCalibrateResult = DEVICE_I2C_ERROR) :
    (recalibrate s env).1 = DEVICE_I2C_ERROR ∧
    (recalibrate s env).2.calibrated = false ∧
    (recalibrate s env).2.centerState = s.centerState := by
  unfold recalibrate
  simp [hc, he]

/-- Witness for C3 at a concrete compass-attached state and failing bus. -/
theorem C3_witness :
    sComp.hasComp = true ∧ envI2c.compCalibrateResult = DEVICE_I2C_ERROR ∧
    ((recalibrate sComp envI2c).1 = DEVICE_I2C_ERROR ∧
     (recalibrate sComp envI2c).2.calibrated = false ∧
     (recalibrate sComp envI2c).2.centerState = sComp.centerState) :=
  ⟨rfl, rfl, C3_recalibrate_i2c_error sComp envI2c rfl rfl⟩

/-- Claim C4: with the component not calibrated, update(false) returns
CalibrationInProgress with the state (pose, center reference, motion
state) completely untouched — and since the result is the same for every
`Env`, no raw sensor value is consulted; with the override flag true the
gate is bypassed and the sample proceeds (the pose fields receive the raw
readings minus the center reference). -/
theorem C4_update_calibration_gate (s : Space3DState) (env : Env)
    (h : s.calibrated = false) :
    update s env false = (DEVICE_CALIBRATION_IN_PROGRESS, s) ∧
    ((update s env true).2).currentState.device_x = env.accelX - s.centerState.CENTER_X ∧
    ((update s env true).2).currentState.device_y = env.accelY - s.centerState.CENTER_Y ∧
    ((update s env true).2).currentState.device_z = env.accelZ - s.centerState.CENTER_Z ∧
    ((update s env true).2).currentState.device_roll = env.accelRoll - s.centerState.CENTER_ROLL ∧
    ((update s env true).2).currentState.device_pitch = env.accelPitch - s.centerState.CENTER_PITCH := by
  refine ⟨update_gate s env h, ?_, ?_, ?_, ?_, ?_⟩ <;>
  · unfold update
    rw [if_neg (by simp : ¬ (true = false ∧ s.calibrated = false))]
    dsimp only
    split_ifs <;> rfl

/-- Witness for C4 at the fresh uncalibrated state and non-trivial
readings. -/
theorem C4_witness :
    baseState.calibrated = false ∧
    (update baseState envRaw false = (DEVICE_CALIBRATION_IN_PROGRESS, baseState) ∧
     ((update baseState envRaw true).2).currentState.device_x =
       envRaw.accelX - baseState.centerState.CENTER_X ∧
     ((update baseState envRaw true).2).currentState.device_y =
       envRaw.accelY - baseState.centerState.CENTER_Y ∧
     ((update baseState envRaw true).2).currentState.device_z =
       envRaw.accelZ - baseState.centerState.CENTER_Z ∧
     ((update baseState envRaw true).2).currentState.device_roll =
       envRaw.accelRoll - baseState.centerState.CENTER_ROLL ∧
     ((update baseState envRaw true).2).currentState.device_pitch =
       envRaw.accelPitch - baseState.centerState.CENTER_PITCH) :=
  ⟨rfl, C4_update_calibration_gate baseState envRaw rfl⟩

/-- A no-compass state whose lateral pose points in a non-axis direction
while `radialAccel` sits below the spin threshold. -/
def sSpin : Space3DState :=
  { baseState with currentState := ⟨-7, 42, 0, 0, 0, 0⟩, radialAccel := 50 }

/-- Claim C6: with no compass attached and the most recent RadialAcceleration
magnitude below the spin threshold 100, the fallback yaw is exactly 0,
whatever the direction of the lateral acceleration held in the pose. -/
theorem C6_spin_threshold_suppression (s : Space3DState)
    (_hc : s.hasComp = false)
    (hr : s.radialAccel < SPIN_THRESHOLD) :
    getYaw s = 0 :=
  getYaw_radial_lt s hr

/-- Witness for C6 at a state with lateral direction (-7, 42) and
radialAccel = 50 < 100. -/
theorem C6_witness :
    sSpin.hasComp = false ∧ sSpin.radialAccel < SPIN_THRESHOLD ∧
    getYaw sSpin = 0 :=
  ⟨rfl, by norm_num [sSpin, baseState, initialState, SPIN_THRESHOLD],
   C6_spin_threshold_suppression sSpin rfl
     (by norm_num [sSpin, baseState, initialState, SPIN_THRESHOLD])⟩

/-- Claim C7: motionTracking(true) zeroes position and velocity from every
prior motion state; motionTracking(false) freezes (does not clear) the
current position and velocity. -/
theorem C7_motionTracking_reset (s : Space3DState) :
    (motionTracking s true).x = 0 ∧ (motionTracking s true).y = 0 ∧
    (motionTracking s true).z = 0 ∧ (motionTracking s true).vx = 0 ∧
    (motionTracking s true).vy = 0 ∧ (motionTracking s true).vz = 0 ∧
    (motionTracking s false).x = s.x ∧ (motionTracking s false).y = s.y ∧
    (motionTracking s false).z = s.z ∧ (motionTracking s false).vx = s.vx ∧
    (motionTracking s false).vy = s.vy ∧ (motionTracking s false).vz = s.vz := by
  unfold motionTracking
  norm_num

/-- Claim C8: setSampleRate before calibration returns
CalibrationInProgress leaving the whole state — stored rate and tick
registrations included — untouched; once calibrated it stores the new
rate, registers the tick at that rate, and returns Ok. -/
theorem C8_setSampleRate_gate (s : Space3DState) (rate : Int) :
    (s.calibrated = false →
      setSampleRate s rate = (DEVICE_CALIBRATION_IN_PROGRESS, s)) ∧
    (s.calibrated = true →
      (setSampleRate s rate).1 = DEVICE_OK ∧
      (setSampleRate s rate).2.sampleRate = rate ∧
      (setSampleRate s rate).2.tickRegs = (rate, s.tickId) :: s.tickRegs) := by
  constructor
  · intro h
    simp [setSampleRate, h]
  · intro h
    simp [setSampleRate, setup, h]

/-- Witness for C8: the uncalibrated branch at the fresh state and the
calibrated branch at `sCal`, both with rate 10. -/
theorem C8_witness :
    (setSampleRate baseState 10 = (DEVICE_CALIBRATION_IN_PROGRESS, baseState)) ∧
    ((setSampleRate sCal 10).1 = DEVICE_OK ∧
     (setSampleRate sCal 10).2.sampleRate = 10 ∧
     (setSampleRate sCal 10).2.tickRegs = (10, sCal.tickId) :: sCal.tickRegs) :=
  ⟨(C8_setSampleRate_gate baseState 10).1 rfl,
   (C8_setSampleRate_gate sCal 10).2 rfl⟩

/-- Claim C10: the free-fall branch is part of the compiled program even
though ENABLE_FALL_SPEED_DECTION is defined as 0 (the guard tests
definedness, not value): every free-fall gesture integrates
(az - 9.81) * dt into velocity_z and fires a
DEVICE_ID_SPACE3D_FALL_REPORT event carrying the new estimate. -/
theorem C10_freefall_branch_compiled (s : Space3DState) (env : Env) :
    ENABLE_FALL_SPEED_DECTION = 0 ∧
    ENABLE_FALL_SPEED_DECTION_isDefined = true ∧
    (onGestureDetected s env ACCELEROMETER_EVT_FREEFALL).velocity_z =
      s.velocity_z + ((env.accelZ : ℝ) * 9.81 / 1000 - 9.81) *
        (((env.now : ℝ) - (s.last_time : ℝ)) / 1000) ∧
    (onGestureDetected s env ACCELEROMETER_EVT_FREEFALL).firedEvents =
      (DEVICE_ID_SPACE3D_FALL_REPORT,
        s.velocity_z + ((env.accelZ : ℝ) * 9.81 / 1000 - 9.81) *
          (((env.now : ℝ) - (s.last_time : ℝ)) / 1000)) :: s.firedEvents := by
  refine ⟨rfl, rfl, ?_, ?_⟩ <;>
  · unfold onGestureDetected
    norm_num [ACCELEROMETER_EVT_FREEFALL, ACCELEROMETER_EVT_SHAKE,
      ACCELEROMETER_EVT_2G, ACCELEROMETER_EVT_3G, ACCELEROMETER_EVT_6G,
      ACCELEROMETER_EVT_8G, ACCELEROMETER_EVT_TILT_LEFT,
      ACCELEROMETER_EVT_TILT_RIGHT, ACCELEROMETER_EVT_FACE_UP,
      ACCELEROMETER_EVT_FACE_DOWN, ENABLE_FALL_SPEED_DECTION_isDefined]

/-- A calibrated no-compass state whose center reference is NOT all-zero
(CENTER_X = 3), under a static all-zero raw reading. -/
def sCenter3 : Space3DState :=
  { initialState 25 false with calibrated := true
                               centerState := ⟨3, 0, 0, 0, 0, 0⟩ }

/-- Claim C2 fails on the code: `calibrateCenter` stores the
center-subtracted OFFSET pose, not the raw reading, so with pre-call
center (3,0,0,0,0,0) and a static all-zero raw reading it stores -3 and
the immediately following update(false) publishes device_x = 3 — the pose
is not all zero, contradicting cancellation for every prior center. -/
theorem C2_counterexample :
    ((update (calibrateCenter sCenter3 envZero) envZero false).2).currentState.device_x = 3 ∧
    ((update (calibrateCenter sCenter3 envZero) envZero false).2).currentState ≠
      (⟨0, 0, 0, 0, 0, 0⟩ : SPACE_3D) := by
  have hcomp : sCenter3.hasComp = false := rfl
  have hr : sCenter3.radialAccel < SPIN_THRESHOLD := by
    norm_num [sCenter3, initialState, SPIN_THRESHOLD]
  have hcen := calibrateCenter_centerState sCenter3 envZero hcomp hr
  have hcomp2 : (calibrateCenter sCenter3 envZero).hasComp = false := by
    rw [calibrateCenter_hasComp]
    exact hcomp
  have hr2 : (calibrateCenter sCenter3 envZero).radialAccel < SPIN_THRESHOLD := by
    rw [calibrateCenter_radialAccel]
    exact hr
  have hcal2 : (calibrateCenter sCenter3 envZero).calibrated = true := by
    rw [calibrateCenter_calibrated]
    rfl
  have hcur := update_pass_currentState (calibrateCenter sCenter3 envZero) envZero false
    (Or.inr hcal2) hcomp2 hr2
  rw [hcen] at hcur
  rw [hcur]
  constructor
  · norm_num [sCenter3, envZero, initialState]
  · norm_num [sCenter3, envZero, initialState]

/-- Claim C2 amended: if the component is calibrated, no compass is
attached, the spin gate is closed (radialAccel below the threshold, so
the fallback yaw is the stable 0), and the center reference was all-zero
before the call (e.g. a first calibration), then calibrateCenter()
followed immediately by update(false) on a static sensor yields the
all-zero pose. -/
theorem C2_calibrate_then_update_zero (s : Space3DState) (env : Env)
    (hcal : s.calibrated = true)
    (hcomp : s.hasComp = false)
    (hr : s.radialAccel < SPIN_THRESHOLD)
    (hzero : s.centerState = ⟨0, 0, 0, 0, 0, 0⟩) :
    ((update (calibrateCenter s env) env false).2).currentState =
      (⟨0, 0, 0, 0, 0, 0⟩ : SPACE_3D) := by
  have hcen := calibrateCenter_centerState s env hcomp hr
  rw [hzero] at hcen
  have hcomp2 : (calibrateCenter s env).hasComp = false := by
    rw [calibrateCenter_hasComp]
    exact hcomp
  have hr2 : (calibrateCenter s env).radialAccel < SPIN_THRESHOLD := by
    rw [calibrateCenter_radialAccel]
    exact hr
  have hcal2 : (calibrateCenter s env).calibrated = true := by
    rw [calibrateCenter_calibrated]
    exact hcal
  have hcur := update_pass_currentState (calibrateCenter s env) env false
    (Or.inr hcal2) hcomp2 hr2
  rw [hcen] at hcur
  rw [hcur]
  norm_num

/-- Witness for the amended C2 at a concrete calibrated zero-center state
and non-trivial static readings. -/
theorem C2_amended_witness :
    sCal.calibrated = true ∧ sCal.hasComp = false ∧
    sCal.radialAccel < SPIN_THRESHOLD ∧
    sCal.centerState = ⟨0, 0, 0, 0, 0, 0⟩ ∧
    ((update (calibrateCenter sCal envRaw) envRaw false).2).currentState =
      (⟨0, 0, 0, 0, 0, 0⟩ : SPACE_3D) :=
  ⟨rfl, rfl, by norm_num [sCal, baseState, initialState, SPIN_THRESHOLD], rfl,
   C2_calibrate_then_update_zero sCal envRaw rfl rfl
     (by norm_num [sCal, baseState, initialState, SPIN_THRESHOLD]) rfl⟩

/-- A calibrated no-compass state whose center reference holds yaw 10. -/
def sYaw10 : Space3DState :=
  { initialState 25 false with calibrated := true
                               centerState := ⟨0, 0, 0, 0, 0, 10⟩ }

/-- Claim C5 fails on the code: update publishes
`getYaw() - CENTER_YAW`, so with CENTER_YAW = 10 and the spin gate closed
(fallback angle 0) the published device_yaw is -10, outside [0, 360). -/
theorem C5_counterexample :
    ((update sYaw10 envZero false).2).currentState.device_yaw = -10 ∧
    ¬ (0 ≤ ((update sYaw10 envZero false).2).currentState.device_yaw) := by
  have hcomp : sYaw10.hasComp = false := rfl
  have hr : sYaw10.radialAccel < SPIN_THRESHOLD := by
    norm_num [sYaw10, initialState, SPIN_THRESHOLD]
  have hcal : sYaw10.calibrated = true := rfl
  have hcur := update_pass_currentState sYaw10 envZero false (Or.inr hcal) hcomp hr
  rw [hcur]
  norm_num [sYaw10, initialState]

theorem atan2_le_pi (y x : ℝ) : atan2 y x ≤ Real.pi := by
  have hpi := Real.pi_pos
  unfold atan2
  split_ifs with h1 h2 h3 h4 h5
  · linarith [Real.arctan_lt_pi_div_two (y / x)]
  · have hd : y / x ≤ 0 := div_nonpos_of_nonneg_of_nonpos h2.2 h2.1.le
    have harc : Real.arctan (y / x) ≤ Real.arctan 0 :=
      Real.arctan_strictMono.monotone hd
    rw [Real.arctan_zero] at harc
    linarith
  · linarith [Real.arctan_lt_pi_div_two (y / x)]
  · linarith
  · linarith
  · linarith

theorem neg_pi_le_atan2 (y x : ℝ) : -Real.pi ≤ atan2 y x := by
  have hpi := Real.pi_pos
  unfold atan2
  split_ifs with h1 h2 h3 h4 h5
  · linarith [Real.neg_pi_div_two_lt_arctan (y / x)]
  · linarith [Real.neg_pi_div_two_lt_arctan (y / x)]
  · have hy : y < 0 := by
      by_contra hy
      exact h2 ⟨h3, not_lt.mp hy⟩
    have hd : 0 ≤ y / x := (div_pos_of_neg_of_neg hy h3).le
    have harc : Real.arctan 0 ≤ Real.arctan (y / x) :=
      Real.arctan_strictMono.monotone hd
    rw [Real.arctan_zero] at harc
    linarith
  · linarith
  · linarith
  · linarith

/-- Claim C5 amended: it is the fallback angle computed by getYaw that
always lies in [0, 360) — the atan2 degree angle lies in [-180, 180] and
is either suppressed to 0 by the spin gate or normalized by adding 360
when negative; the published device_yaw additionally subtracts
CENTER_YAW and can leave that interval (see the counterexample). -/
theorem C5_fallback_yaw_range (s : Space3DState) :
    0 ≤ getYaw s ∧ getYaw s < 360 := by
  have hpi := Real.pi_pos
  have h1 := atan2_le_pi (s.currentState.device_y : ℝ) (s.currentState.device_x : ℝ)
  have h2 := neg_pi_le_atan2 (s.currentState.device_y : ℝ) (s.currentState.device_x : ℝ)
  unfold getYaw
  dsimp only
  set a : ℝ :=
    atan2 (s.currentState.device_y : ℝ) (s.currentState.device_x : ℝ) with ha
  have hu : a * 180 / Real.pi ≤ 180 := by
    rw [div_le_iff₀ hpi]
    nlinarith
  have hl : -180 ≤ a * 180 / Real.pi := by
    rw [le_div_iff₀ hpi]
    nlinarith
  split_ifs with hr hneg
  · norm_num
  · constructor <;> linarith
  · have := not_lt.mp hneg
    constructor <;> linarith

/-- The constructor tail shared by all four constructors: after `setup`,
`calibrateCenter`, `calibrated = true` and the final gated update, the
state is calibrated, compass-less (the flag is only assigned after this
chain), has zero `radialAccel`, holds the raw reading as its center
reference, and publishes an all-zero pose. -/
theorem constructChain_spec (env : Env) (rate : Int) (s3 : Space3DState)
    (hdef : s3 = { calibrateCenter (setup (initialState rate false)) env with
                   calibrated := true }) :
    ((update s3 env false).2).calibrated = true ∧
    ((update s3 env false).2).hasComp = false ∧
    ((update s3 env false).2).radialAccel = 0 ∧
    ((update s3 env false).2).centerState =
      ⟨env.accelX, env.accelY, env.accelZ, env.accelRoll, env.accelPitch, 0⟩ ∧
    ((update s3 env false).2).currentState = (⟨0, 0, 0, 0, 0, 0⟩ : SPACE_3D) := by
  subst hdef
  have h0comp : (setup (initialState rate false)).hasComp = false := rfl
  have h0rad : (setup (initialState rate false)).radialAccel = 0 := rfl
  have h0r : (setup (initialState rate false)).radialAccel < SPIN_THRESHOLD := by
    rw [h0rad]
    norm_num [SPIN_THRESHOLD]
  have hcen : (calibrateCenter (setup (initialState rate false)) env).centerState =
      ⟨env.accelX, env.accelY, env.accelZ, env.accelRoll, env.accelPitch, 0⟩ := by
    rw [calibrateCenter_centerState _ _ h0comp h0r]
    simp [setup, initialState]
  have hcal3 : ({ calibrateCenter (setup (initialState rate false)) env with
      calibrated := true } : Space3DState).calibrated = true := rfl
  have hcomp3 : ({ calibrateCenter (setup (initialState rate false)) env with
      calibrated := true } : Space3DState).hasComp = false := by
    show (calibrateCenter (setup (initialState rate false)) env).hasComp = false
    rw [calibrateCenter_hasComp]
    exact h0comp
  have hrad3 : ({ calibrateCenter (setup (initialState rate false)) env with
      calibrated := true } : Space3DState).radialAccel = 0 := by
    show (calibrateCenter (setup (initialState rate false)) env).radialAccel = 0
    rw [calibrateCenter_radialAccel]
    exact h0rad
  have hr3 : ({ calibrateCenter (setup (initialState rate false)) env with
      calibrated := true } : Space3DState).radialAccel < SPIN_THRESHOLD := by
    rw [hrad3]
    norm_num [SPIN_THRESHOLD]
  have hcen3 : ({ calibrateCenter (setup (initialState rate false)) env with
      calibrated := true } : Space3DState).centerState =
      ⟨env.accelX, env.accelY, env.accelZ, env.accelRoll, env.accelPitch, 0⟩ := hcen
  refine ⟨?_, ?_, ?_, ?_, ?_⟩
  · rw [update_calibrated]
  · rw [update_hasComp]
    exact hcomp3
  · rw [update_radialAccel]
    exact hrad3
  · rw [update_centerState]
    exact hcen3
  · have hcur := update_pass_currentState _ env false (Or.inr hcal3) hcomp3 hr3
    rw [hcur, hcen3]
    norm_num

/-- Summary of the no-compass constructor (src lines 143-155). -/
theorem construct1_spec (env : Env) (rate : Int) :
    (construct1 env rate).calibrated = true ∧
    (construct1 env rate).hasComp = false ∧
    (construct1 env rate).radialAccel = 0 ∧
    (construct1 env rate).centerState =
      ⟨env.accelX, env.accelY, env.accelZ, env.accelRoll, env.accelPitch, 0⟩ ∧
    (construct1 env rate).currentState = (⟨0, 0, 0, 0, 0, 0⟩ : SPACE_3D) := by
  obtain ⟨h1, _, h3, h4, h5⟩ := constructChain_spec env rate _ rfl
  exact ⟨h1, rfl, h3, h4, h5⟩

/-- Summary of the accelerometer-plus-compass constructor (src lines
157-170). -/
theorem construct2_spec (env : Env) (rate : Int) :
    (construct2 env rate).calibrated = true ∧
    (construct2 env rate).hasComp = true ∧
    (construct2 env rate).radialAccel = 0 ∧
    (construct2 env rate).centerState =
      ⟨env.accelX, env.accelY, env.accelZ, env.accelRoll, env.accelPitch, 0⟩ ∧
    (construct2 env rate).currentState = (⟨0, 0, 0, 0, 0, 0⟩ : SPACE_3D) := by
  obtain ⟨h1, _, h3, h4, h5⟩ := constructChain_spec env rate _ rfl
  exact ⟨h1, rfl, h3, h4, h5⟩

/-- Claim C9 fails on the code: constructing with a compass whose
calibrate() reports an I2C bus error still leaves the component
Calibrated — the constructor sets the flag before invoking
`comp.calibrate()` as its final statement and discards that result, so a
failed calibration does not leave the state not-Calibrated. -/
theorem C9_counterexample : (construct2 envI2c 25).calibrated = true :=
  (construct2_spec envI2c 25).1

/-- Claim C9 amended: every constructor runs one full center calibration
synchronously (the raw reading is captured as the center reference) and
then unconditionally sets the state to Calibrated before returning; the
compass constructors invoke the compass's native calibration last and
discard its result, so the post-construction state is always Calibrated,
even when that calibration failed. -/
theorem C9_construction_always_calibrated (env : Env) (rate : Int) :
    (construct1 env rate).calibrated = true ∧
    (construct2 env rate).calibrated = true ∧
    (construct3 env rate).calibrated = true ∧
    (construct4 env rate).calibrated = true ∧
    (construct1 env rate).centerState.CENTER_X = env.accelX ∧
    (construct2 env rate).centerState.CENTER_X = env.accelX := by
  obtain ⟨h1a, _, _, h1c, _⟩ := construct1_spec env rate
  obtain ⟨h2a, _, _, h2c, _⟩ := construct2_spec env rate
  have h3 : construct3 env rate = construct2 env rate := rfl
  have h4 : construct4 env rate = construct1 env rate := rfl
  refine ⟨h1a, h2a, ?_, ?_, ?_, ?_⟩
  · rw [h3]
    exact h2a
  · rw [h4]
    exact h1a
  · rw [h1c]
  · rw [h2c]

/-- The C1 scenario: an accelerometer fixed at raw (100, 0, 0, 0, 0). -/
def envC1a : Env := { envZero with accelX := 100 }

/-- The C1 scenario after the raw reading changes to (150, 0, 0, 0, 0). -/
def envC1b : Env := { envZero with accelX := 150 }

/-- Claim C1: constructed over an accelerometer fixed at raw
(100, 0, 0, 0, 0) with no compass, the component's pose immediately
after construction is (0,0,0,0,0,0); when the raw reading changes to
(150, 0, 0, 0, 0), the next update(false) publishes device_x = 50,
device_y = 0 and device_yaw = 0 (the spin gate stays closed, so the
fallback yaw is suppressed to 0). -/
theorem C1_end_to_end :
    (construct1 envC1a 25).currentState = (⟨0, 0, 0, 0, 0, 0⟩ : SPACE_3D) ∧
    ((update (construct1 envC1a 25) envC1b false).2).currentState.device_x = 50 ∧
    ((update (construct1 envC1a 25) envC1b false).2).currentState.device_y = 0 ∧
    ((update (construct1 envC1a 25) envC1b false).2).currentState.device_yaw = 0 := by
  obtain ⟨hcal, hcomp, hrad, hcen, hcur⟩ := construct1_spec envC1a 25
  have hr : (construct1 envC1a 25).radialAccel < SPIN_THRESHOLD := by
    rw [hrad]
    norm_num [SPIN_THRESHOLD]
  have h2 := update_pass_currentState (construct1 envC1a 25) envC1b false
    (Or.inr hcal) hcomp hr
  rw [hcen] at h2
  refine ⟨hcur, ?_, ?_, ?_⟩ <;> rw [h2] <;> norm_num [envC1a, envC1b, envZero]

end Space3DModel
